import Mathlib

set_option maxRecDepth 10000

namespace Telescope

/-- JSON values as produced by the Python 2 json module: None, bool, numbers
(modelled as integers; the selector format uses integral numbers only),
unicode strings, lists, and dicts (modelled as association lists in insertion
order; the json module makes later duplicate keys win, see json_loads). -/
inductive Json where
  | null : Json
  | bool : Bool → Json
  | num : Int → Json
  | str : String → Json
  | arr : List Json → Json
  | obj : List (String × Json) → Json

/-- Python exceptions raised by the code under study. The json module's decode
failure is a ValueError subclass whose message varies with the input text
("No JSON object could be decoded", "Extra data", ...); it is modelled as its
own constructor so that no variable message has to be reproduced. -/
inductive PyErr where
  | valueError : String → PyErr
  | exception : String → PyErr
  | keyError : String → PyErr
  | typeError : String → PyErr
  | nameError : String → PyErr
  | attributeError : String → PyErr
  | indexError : PyErr
  | jsonDecodeError : PyErr
  deriving DecidableEq

mutual
/-- Structural equality of JSON values, the semantics of the == and !=
operators that the Python code applies to parsed JSON values. -/
def jsonBeq : Json → Json → Bool
  | Json.null, Json.null => true
  | Json.bool a, Json.bool b => a == b
  | Json.num a, Json.num b => a == b
  | Json.str a, Json.str b => a == b
  | Json.arr a, Json.arr b => jsonListBeq a b
  | Json.obj a, Json.obj b => jsonObjBeq a b
  | _, _ => false
def jsonListBeq : List Json → List Json → Bool
  | [], [] => true
  | a :: as, b :: bs => jsonBeq a b && jsonListBeq as bs
  | _, _ => false
def jsonObjBeq : List (String × Json) → List (String × Json) → Bool
  | [], [] => true
  | (k, v) :: as, (k2, v2) :: bs => k == k2 && jsonBeq v v2 && jsonObjBeq as bs
  | _, _ => false
end

instance instDecEqExcept {ε α : Type} [DecidableEq ε] [DecidableEq α] :
    DecidableEq (Except ε α) := fun a b =>
  match a, b with
  | Except.ok x, Except.ok y =>
    if h : x = y then Decidable.isTrue (by rw [h])
    else Decidable.isFalse (fun hc => h (Except.ok.inj hc))
  | Except.error x, Except.error y =>
    if h : x = y then Decidable.isTrue (by rw [h])
    else Decidable.isFalse (fun hc => h (Except.error.inj hc))
  | Except.ok _, Except.error _ => Decidable.isFalse (fun hc => Except.noConfusion hc)
  | Except.error _, Except.ok _ => Decidable.isFalse (fun hc => Except.noConfusion hc)

/-- Dropping a matched run never lengthens a list (termination measure for the
regular-expression scanner below). -/
theorem length_dropWhile_le_gen {α : Type} (p : α → Bool) :
    ∀ l : List α, (List.dropWhile p l).length ≤ l.length := by
  intro l
  induction l with
  | nil => simp [List.dropWhile]
  | cons c cs ih =>
    by_cases h : p c
    · simp [List.dropWhile, h]; omega
    · simp [List.dropWhile, h]

/-- Character class [0-9] of the regular expressions in selector.py
(code points 48 to 57). -/
def isDigitChar (c : Char) : Bool := 48 ≤ c.toNat && c.toNat ≤ 57

/-- Character class [a-zA-Z] of the regular expressions in selector.py
(code points 97 to 122 and 65 to 90). -/
def isAlphaChar (c : Char) : Bool :=
  (97 ≤ c.toNat && c.toNat ≤ 122) || (65 ≤ c.toNat && c.toNat ≤ 90)

/-- Fuelled scanner for the pattern [0-9]+[a-zA-Z]+: at each position a match
is the maximal run of digits followed by the maximal run of letters, both
nonempty; on failure the scan advances one character. The fuel argument only
serves structural recursion; any fuel at least the list length gives the
scan's fixed point (findall_go_fuel_irrelevant below). -/
def findall_go : Nat → List Char → List (List Char)
  | _, [] => []
  | 0, _ :: _ => []
  | fuel + 1, c :: cs =>
    if isDigitChar c then
      let rest1 := List.dropWhile isDigitChar (c :: cs)
      let ls := List.takeWhile isAlphaChar rest1
      if ls.isEmpty then findall_go fuel cs
      else (List.takeWhile isDigitChar (c :: cs) ++ ls) ::
             findall_go fuel (List.dropWhile isAlphaChar rest1)
    else findall_go fuel cs

/-- Sufficient fuel makes the scanner's result independent of the exact fuel:
every step consumes at least one character together with one unit of fuel. -/
theorem findall_go_fuel_irrelevant :
    ∀ fuel1 fuel2 l, l.length ≤ fuel1 → l.length ≤ fuel2 →
      findall_go fuel1 l = findall_go fuel2 l := by
  intro fuel1
  induction fuel1 with
  | zero =>
    intro fuel2 l h1 _
    have : l = [] := List.length_eq_zero.mp (Nat.le_zero.mp h1)
    subst this
    cases fuel2 <;> rfl
  | succ f ih =>
    intro fuel2 l h1 h2
    cases l with
    | nil => cases fuel2 <;> rfl
    | cons c cs =>
      cases fuel2 with
      | zero => simp at h2
      | succ f2 =>
        simp only [findall_go]
        by_cases hd : isDigitChar c
        · simp only [hd, if_true]
          by_cases he :
              (List.takeWhile isAlphaChar (List.dropWhile isDigitChar (c :: cs))).isEmpty
          · simp only [he, if_true]
            exact ih f2 cs (by simp at h1; omega) (by simp at h2; omega)
          · have hrest : (List.dropWhile isDigitChar (c :: cs)).length ≤ cs.length := by
              rw [List.dropWhile_cons]
              simp only [hd, if_true]
              exact length_dropWhile_le_gen _ _
            have hdrop :
                (List.dropWhile isAlphaChar (List.dropWhile isDigitChar (c :: cs))).length ≤
                cs.length :=
              Nat.le_trans (length_dropWhile_le_gen _ _) hrest
            rw [if_neg he, if_neg he]
            congr 1
            exact ih f2 _ (by simp at h1; omega) (by simp at h2; omega)
        · simp only [hd, if_false]
          exact ih f2 cs (by simp at h1; omega) (by simp at h2; omega)

/-- Leftmost non-overlapping matches of the pattern [0-9]+[a-zA-Z]+, as
computed by re.findall in selector.py, line 146. -/
def findall_digits_alpha (l : List Char) : List (List Char) :=
  findall_go l.length l

/-- Model of re.search(pattern, s).group(0) for a single-character-class
pattern p+: the leftmost maximal run of characters satisfying p (empty when
re.search would return None). Used in selector.py lines 150 and 151. -/
def first_run (p : Char → Bool) (l : List Char) : List Char :=
  List.takeWhile p (List.dropWhile (fun c => !(p c)) l)

/-- Value of a digit string under Python int(), selector.py line 150. -/
def digitsToNat (l : List Char) : Nat :=
  l.foldl (fun acc c => acc * 10 + (c.toNat - ('0' : Char).toNat)) 0

/-- Seconds contributed by one matched segment of parse_duration
(selector.py lines 150-162): the digit run scaled by the unit letter run,
raising ValueError UnsupportedSelectorDurationType on any other unit. -/
def segment_seconds (seg : List Char) : Except PyErr Nat :=
  let numerical_amount := digitsToNat (first_run isDigitChar seg)
  let duration_type := String.mk (first_run isAlphaChar seg)
  if duration_type = "d" then Except.ok (86400 * numerical_amount)
  else if duration_type = "h" then Except.ok (3600 * numerical_amount)
  else if duration_type = "m" then Except.ok (60 * numerical_amount)
  else if duration_type = "s" then Except.ok numerical_amount
  else Except.error (PyErr.valueError "UnsupportedSelectorDurationType")

/-- SelectorFileParser.parse_duration (selector.py lines 132-166): splits the
input into [0-9]+[a-zA-Z]+ segments, sums their second counts, raises
ValueError UnsupportedSelectorDuration when no segment matches. The Python
accumulator becomes a float once a timedelta is involved; all summands are
whole numbers of seconds, so it is modelled as a natural number. -/
def parse_duration (s : String) : Except PyErr Nat :=
  let duration_string_segments := findall_digits_alpha s.data
  if duration_string_segments.length > 0 then
    duration_string_segments.foldlM
      (fun acc seg => (segment_seconds seg).map (fun n => acc + n)) 0
  else Except.error (PyErr.valueError "UnsupportedSelectorDuration")

example : parse_duration "1d2h" = Except.ok 93600 := by decide
example : parse_duration "30d" = Except.ok 2592000 := by decide
example : parse_duration "30x" =
    Except.error (PyErr.valueError "UnsupportedSelectorDurationType") := by decide
example : parse_duration "" =
    Except.error (PyErr.valueError "UnsupportedSelectorDuration") := by decide

/-- Python datetime values at second granularity (all datetimes in the code
are UTC; parse_start_time produces second-granularity values, so the
sub-second fields of datetime are never populated). -/
structure Dt where
  year : Nat
  month : Nat
  day : Nat
  hour : Nat
  minute : Nat
  second : Nat
  deriving DecidableEq

/-- Gregorian leap-year rule used by Python's datetime module. -/
def isLeapYear (y : Nat) : Bool := (y % 4 == 0 && y % 100 != 0) || y % 400 == 0

/-- Length of a calendar month, as in Python's calendar arithmetic. -/
def daysInMonth (y m : Nat) : Nat :=
  if m = 2 then (if isLeapYear y then 29 else 28)
  else if m = 4 || m = 6 || m = 9 || m = 11 then 30
  else 31

/-- Well-formed datetime: the ranges datetime.datetime enforces (year at
least MINYEAR = 1, calendar-valid month and day, clock-valid time). -/
def validDt (t : Dt) : Prop :=
  1 ≤ t.year ∧ 1 ≤ t.month ∧ t.month ≤ 12 ∧ 1 ≤ t.day ∧
    t.day ≤ daysInMonth t.year t.month ∧ t.hour ≤ 23 ∧ t.minute ≤ 59 ∧ t.second ≤ 59

instance (t : Dt) : Decidable (validDt t) := by unfold validDt; infer_instance

/-- Strict chronological order on datetimes (lexicographic on the fields,
which agrees with Python datetime comparison for well-formed values). -/
def dtLt (a b : Dt) : Prop :=
  a.year < b.year ∨ (a.year = b.year ∧ (a.month < b.month ∨ (a.month = b.month ∧
    (a.day < b.day ∨ (a.day = b.day ∧ (a.hour < b.hour ∨ (a.hour = b.hour ∧
      (a.minute < b.minute ∨ (a.minute = b.minute ∧ a.second < b.second)))))))))

/-- Non-strict chronological order on datetimes. -/
def dtLe (a b : Dt) : Prop :=
  dtLt a b ∨ (a.year = b.year ∧ a.month = b.month ∧ a.day = b.day ∧
    a.hour = b.hour ∧ a.minute = b.minute ∧ a.second = b.second)

instance (a b : Dt) : Decidable (dtLt a b) := by unfold dtLt; infer_instance

instance (a b : Dt) : Decidable (dtLe a b) := by unfold dtLe dtLt; infer_instance

/-- Python dicts holding parsed JSON, as association lists. -/
abbrev PyDict := List (String × Json)

/-- Python dict.has_key. -/
def hasKey (d : PyDict) (k : String) : Bool := d.any (fun kv => kv.1 == k)

/-- Python dict item lookup: the value, or a KeyError naming the key. -/
def dictGet (d : PyDict) (k : String) : Except PyErr Json :=
  match d.find? (fun kv => kv.1 == k) with
  | some kv => Except.ok kv.2
  | none => Except.error (PyErr.keyError k)

/-- Python subscript v[k] with a string key: dict lookup on dicts, TypeError
on any other JSON value. -/
def pyGetItemStr (v : Json) (k : String) : Except PyErr Json :=
  match v with
  | Json.obj d => dictGet d k
  | _ => Except.error (PyErr.typeError "object is unsubscriptable")

/-- Python v.keys() on a parsed JSON value: the key list of a dict,
AttributeError on anything else. -/
def pyKeys (v : Json) : Except PyErr (List String) :=
  match v with
  | Json.obj d => Except.ok (d.map (fun kv => kv.1))
  | _ => Except.error (PyErr.attributeError "keys")

/-- Python len() on a parsed JSON value: defined for strings, lists and
dicts; TypeError for values with no length. -/
def pyLen (v : Json) : Except PyErr Nat :=
  match v with
  | Json.str s => Except.ok s.length
  | Json.arr l => Except.ok l.length
  | Json.obj d => Except.ok d.length
  | _ => Except.error (PyErr.typeError "object has no len")

/-- Python list indexing with a nonnegative index: IndexError when out of
range. -/
def listIndex (l : List Json) (i : Nat) : Except PyErr Json :=
  match l.get? i with
  | some x => Except.ok x
  | none => Except.error PyErr.indexError

/-- Python 2 mixed-type comparison of a parsed JSON value against an int
(used on file_format_version): None is smaller than everything, bools are
the ints 0 and 1, and every non-numeric value is greater than any number. -/
def py2LtInt (v : Json) (n : Int) : Bool :=
  match v with
  | Json.null => true
  | Json.bool b => (if b then (1 : Int) else 0) < n
  | Json.num m => m < n
  | _ => false

/-- Python 2 greater-than of a parsed JSON value against an int; see
py2LtInt. -/
def py2GtInt (v : Json) (n : Int) : Bool :=
  match v with
  | Json.null => false
  | Json.bool b => n < (if b then (1 : Int) else 0)
  | Json.num m => n < m
  | _ => true

/-- Whether a parsed JSON value is a Python string (str or unicode; the json
module yields unicode strings). -/
def isStrJson : Json → Bool
  | Json.str _ => true
  | _ => false

/-- Whether a parsed JSON value is a Python list. -/
def isListJson : Json → Bool
  | Json.arr _ => true
  | _ => false

/-- Lexicographic comparison of character lists by code point, the order
Python string comparison uses (identical to byte order on the ASCII strings
this code handles). -/
def charListLe : List Char → List Char → Bool
  | [], _ => true
  | _ :: _, [] => false
  | a :: as, b :: bs =>
    if a.toNat < b.toNat then true
    else if b.toNat < a.toNat then false
    else charListLe as bs

/-- Python string less-or-equal. -/
def strLe (a b : String) : Bool := charListLe a.data b.data

/-- Ordered insertion used to model Python sorted() on strings. -/
def insertStr (x : String) : List String → List String
  | [] => [x]
  | y :: ys => if strLe x y then x :: y :: ys else y :: insertStr x ys

/-- Python sorted() on a list of strings: ascending lexicographic order. -/
def sortStr (l : List String) : List String := l.foldr insertStr []

/-- Boolean check that a list of strings is ascending (adjacent pairs in
non-decreasing lexicographic order). -/
def isSortedLeStr : List String → Bool
  | [] => true
  | [_] => true
  | a :: b :: rest => strLe a b && isSortedLeStr (b :: rest)

/-- JSON whitespace characters. -/
def isWsChar (c : Char) : Bool := c == ' ' || c == '\t' || c == '\n' || c == '\r'

/-- Skip JSON whitespace. -/
def skipWs (l : List Char) : List Char := List.dropWhile isWsChar l

/-- Opening brace character (written by code to keep brace characters out of
string literals). -/
def lbraceChar : Char := Char.ofNat 123

/-- Closing brace character. -/
def rbraceChar : Char := Char.ofNat 125

/-- Hexadecimal digit value for unicode escapes. -/
def hexVal (c : Char) : Option Nat :=
  if isDigitChar c then some (c.toNat - ('0' : Char).toNat)
  else if ('a' : Char) ≤ c ∧ c ≤ ('f' : Char) then some (c.toNat - ('a' : Char).toNat + 10)
  else if ('A' : Char) ≤ c ∧ c ≤ ('F' : Char) then some (c.toNat - ('A' : Char).toNat + 10)
  else none

/-- Replace-or-append insertion into a JSON object under construction: the
json module builds objects through dict assignment, so a repeated key keeps
only its last value. -/
def objInsert (d : List (String × Json)) (k : String) (v : Json) : List (String × Json) :=
  if d.any (fun kv => kv.1 == k) then
    d.map (fun kv => if kv.1 == k then (k, v) else kv)
  else d ++ [(k, v)]

/-- JSON string body after the opening quote: plain characters, the standard
single-character escapes, and 4-digit unicode escapes; unescaped control
characters are rejected as the json module's strict mode does. -/
def parseJsonStr : Nat → List Char → Option (String × List Char)
  | 0, _ => none
  | _, [] => none
  | fuel + 1, c :: cs =>
    if c = '"' then some ("", cs)
    else if c = '\\' then
      match cs with
      | [] => none
      | e :: cs2 =>
        let kont := fun (ch : Char) (rest : List Char) =>
          match parseJsonStr fuel rest with
          | some (s, r) => some (String.singleton ch ++ s, r)
          | none => none
        if e = '"' then kont '"' cs2
        else if e = '\\' then kont '\\' cs2
        else if e = '/' then kont '/' cs2
        else if e = 'n' then kont '\n' cs2
        else if e = 't' then kont '\t' cs2
        else if e = 'r' then kont '\r' cs2
        else if e = 'b' then kont (Char.ofNat 8) cs2
        else if e = 'f' then kont (Char.ofNat 12) cs2
        else if e = 'u' then
          match cs2 with
          | h1 :: h2 :: h3 :: h4 :: cs3 =>
            match hexVal h1, hexVal h2, hexVal h3, hexVal h4 with
            | some a, some b, some c2, some d2 =>
              kont (Char.ofNat (((a * 16 + b) * 16 + c2) * 16 + d2)) cs3
            | _, _, _, _ => none
          | _ => none
        else none
    else if c.toNat < 32 then none
    else
      match parseJsonStr fuel cs with
      | some (s, r) => some (String.singleton c ++ s, r)
      | none => none

/-- JSON integer literal grammar: an optional minus sign, then either a bare
zero or a nonzero leading digit followed by digits. The selector format uses
integral numbers only, so fraction and exponent parts are not modelled. -/
def parseJsonInt (l : List Char) : Option (Int × List Char) :=
  let core := fun (m : List Char) =>
    match m with
    | [] => none
    | c :: cs =>
      if c = '0' then some ((0 : Nat), cs)
      else if isDigitChar c then
        some (digitsToNat (List.takeWhile isDigitChar (c :: cs)),
              List.dropWhile isDigitChar (c :: cs))
      else none
  match l with
  | '-' :: rest =>
    match core rest with
    | some (n, r) => some (-(n : Int), r)
    | none => none
  | _ =>
    match core l with
    | some (n, r) => some ((n : Int), r)
    | none => none

mutual
/-- One JSON value starting at the given character list (leading whitespace
allowed), returning the value and the unconsumed remainder. -/
def parseJsonVal : Nat → List Char → Option (Json × List Char)
  | 0, _ => none
  | fuel + 1, l =>
    match skipWs l with
    | [] => none
    | c :: cs =>
      if c = '"' then
        match parseJsonStr fuel cs with
        | some (s, r) => some (Json.str s, r)
        | none => none
      else if c = lbraceChar then parseJsonObjTail fuel (skipWs cs)
      else if c = '[' then parseJsonArrTail fuel (skipWs cs)
      else if c = 't' then
        match cs with
        | 'r' :: 'u' :: 'e' :: r => some (Json.bool true, r)
        | _ => none
      else if c = 'f' then
        match cs with
        | 'a' :: 'l' :: 's' :: 'e' :: r => some (Json.bool false, r)
        | _ => none
      else if c = 'n' then
        match cs with
        | 'u' :: 'l' :: 'l' :: r => some (Json.null, r)
        | _ => none
      else
        match parseJsonInt (c :: cs) with
        | some (n, r) => some (Json.num n, r)
        | none => none

/-- Array remainder after the opening bracket and whitespace. -/
def parseJsonArrTail : Nat → List Char → Option (Json × List Char)
  | 0, _ => none
  | fuel + 1, l =>
    match l with
    | ']' :: r => some (Json.arr [], r)
    | _ => parseJsonArrLoop fuel l []

/-- Array elements: one value, then either a comma and more elements or the
closing bracket. -/
def parseJsonArrLoop : Nat → List Char → List Json → Option (Json × List Char)
  | 0, _, _ => none
  | fuel + 1, l, acc =>
    match parseJsonVal fuel l with
    | none => none
    | some (v, r) =>
      match skipWs r with
      | ',' :: r2 => parseJsonArrLoop fuel r2 (acc ++ [v])
      | ']' :: r2 => some (Json.arr (acc ++ [v]), r2)
      | _ => none

/-- Object remainder after the opening brace and whitespace. -/
def parseJsonObjTail : Nat → List Char → Option (Json × List Char)
  | 0, _ => none
  | fuel + 1, l =>
    match l with
    | c :: r =>
      if c = rbraceChar then some (Json.obj [], r)
      else parseJsonObjLoop fuel (c :: r) []
    | [] => none

/-- Object members: a string key, a colon, a value, then either a comma and
more members or the closing brace. -/
def parseJsonObjLoop : Nat → List Char → List (String × Json) → Option (Json × List Char)
  | 0, _, _ => none
  | fuel + 1, l, acc =>
    match skipWs l with
    | '"' :: r =>
      match parseJsonStr fuel r with
      | none => none
      | some (k, r2) =>
        match skipWs r2 with
        | ':' :: r3 =>
          match parseJsonVal fuel r3 with
          | none => none
          | some (v, r4) =>
            match skipWs r4 with
            | ',' :: r5 => parseJsonObjLoop fuel r5 (objInsert acc k v)
            | c :: r5 =>
              if c = rbraceChar then some (Json.obj (objInsert acc k v), r5)
              else none
            | [] => none
        | _ => none
    | _ => none
end

/-- Model of Python 2 json.loads (selector.py line 90): one JSON document
with nothing but whitespace after it; any failure is the json module's
ValueError (its message varies with the input and is never the string
MalformedInput), modelled as the jsonDecodeError constructor. -/
def json_loads (s : String) : Except PyErr Json :=
  match parseJsonVal (s.length * 2 + 8) s.data with
  | some (j, rest) =>
    if (skipWs rest).isEmpty then Except.ok j else Except.error PyErr.jsonDecodeError
  | none => Except.error PyErr.jsonDecodeError

/-- SelectorFileParser.supported_metrics (selector.py lines 59-65): the
fixed metric-to-schema table, in source order (a Python 2 dict iterates in
hash order; no property proved here depends on the iteration order). -/
def supported_metrics : List (String × String) :=
  [("hop_count", "paris_traceroute"),
   ("download_throughput", "ndt"),
   ("upload_throughput", "ndt"),
   ("minimum_rtt", "ndt"),
   ("average_rtt", "ndt"),
   ("packet_retransmit_rate", "ndt")]

/-- SelectorFileParser.supported_subset_keys (selector.py line 68). -/
def supported_subset_keys : List String := ["start_time", "client_provider", "site"]

/-- Greedy one-or-two-digit number at the head of the list, as matched by
strptime's patterns for month, day, hour, minute and second fields. -/
def grab2 : List Char → Option (Nat × List Char)
  | [] => none
  | [a] => if isDigitChar a then some (digitsToNat [a], []) else none
  | a :: b :: rest =>
    if isDigitChar a then
      if isDigitChar b then some (digitsToNat [a, b], rest)
      else some (digitsToNat [a], b :: rest)
    else none

/-- Expect one literal character. -/
def expectCh (c : Char) : List Char → Option (List Char)
  | x :: rest => if x = c then some rest else none
  | [] => none

/-- SelectorFileParser.parse_start_time (selector.py lines 115-130):
datetime.strptime with format string percent-Y dash percent-m dash
percent-d T percent-H colon percent-M colon percent-S Z, any mismatch or
calendar-invalid combination raising ValueError UnsupportedSubsetDateFormat.
The year takes exactly four digits and the remaining numeric fields one or
two digits, as strptime's patterns do; range validation matches what
strptime plus the datetime constructor enforce. -/
def parse_start_time (start_time_string : String) : Except PyErr Dt :=
  let bad : Except PyErr Dt := Except.error (PyErr.valueError "UnsupportedSubsetDateFormat")
  match start_time_string.data with
  | y1 :: y2 :: y3 :: y4 :: rest =>
    if isDigitChar y1 && isDigitChar y2 && isDigitChar y3 && isDigitChar y4 then
      let y := digitsToNat [y1, y2, y3, y4]
      match expectCh '-' rest with
      | none => bad
      | some r1 =>
        match grab2 r1 with
        | none => bad
        | some (mo, r2) =>
          match expectCh '-' r2 with
          | none => bad
          | some r3 =>
            match grab2 r3 with
            | none => bad
            | some (d, r4) =>
              match expectCh 'T' r4 with
              | none => bad
              | some r5 =>
                match grab2 r5 with
                | none => bad
                | some (h, r6) =>
                  match expectCh ':' r6 with
                  | none => bad
                  | some r7 =>
                    match grab2 r7 with
                    | none => bad
                    | some (mi, r8) =>
                      match expectCh ':' r8 with
                      | none => bad
                      | some r9 =>
                        match grab2 r9 with
                        | none => bad
                        | some (s, r10) =>
                          match r10 with
                          | ['Z'] =>
                            let t : Dt := ⟨y, mo, d, h, mi, s⟩
                            if validDt t then Except.ok t else bad
                          | _ => bad
    else bad
  | _ => bad

/-- IPTranslationStrategySpec fields as parse_ip_translation fills them.
The Python code assigns attributes on the shared class object from
iptranslation rather than on an instance; that aliasing has no bearing on
the returned field values modelled here. -/
structure IPTranslationStrategySpec where
  strategy_name : Json
  params : Json

/-- SelectorFileParser.parse_ip_translation (selector.py lines 168-186):
reads the strategy and params entries; a KeyError is converted to a
ValueError naming the missing field. -/
def parse_ip_translation (ip_translation_dict : Json) : Except PyErr IPTranslationStrategySpec :=
  match pyGetItemStr ip_translation_dict "strategy" with
  | Except.error (PyErr.keyError k) =>
    Except.error (PyErr.valueError ("Missing expected field in ip_translation dict: " ++ k))
  | Except.error e => Except.error e
  | Except.ok sv =>
    match pyGetItemStr ip_translation_dict "params" with
    | Except.error (PyErr.keyError k) =>
      Except.error (PyErr.valueError ("Missing expected field in ip_translation dict: " ++ k))
    | Except.error e => Except.error e
    | Except.ok pv => Except.ok ⟨sv, pv⟩

/-- Loop body of find_independent_variable (selector.py lines 239-244): walk
the first subset's entries (Python dict keys are unique, so each stored pair
value is subsets[0][key]), look the key up in the second subset, track the
first differing key, and raise ValueError IncomparableSets on a second
differing key. -/
def fiv_loop (s1 : Json) : List (String × Json) → Option String → Except PyErr (Option String)
  | [], acc => Except.ok acc
  | (key, v0) :: rest, acc =>
    match pyGetItemStr s1 key with
    | Except.error e => Except.error e
    | Except.ok v1 =>
      if !(jsonBeq v0 v1) then
        match acc with
        | none => fiv_loop s1 rest (some key)
        | some _ => Except.error (PyErr.valueError "IncomparableSets")
      else fiv_loop s1 rest acc

/-- SelectorFileParser.find_independent_variable (selector.py lines
225-248): the name of the single key whose values differ between the first
two subsets; Exception NoIndependentVariable when none differs,
ValueError IncomparableSets when more than one does. -/
def find_independent_variable (subsets : List Json) : Except PyErr String := do
  let s0j ← listIndex subsets 0
  let s1j ← listIndex subsets 1
  match s0j with
  | Json.obj s0 =>
    match fiv_loop s1j s0 none with
    | Except.error e => Except.error e
    | Except.ok none => Except.error (PyErr.exception "NoIndependentVariable")
    | Except.ok (some k) => Except.ok k
  | _ => Except.error (PyErr.attributeError "keys")

/-- SelectorFileParser.validate_selector_input (selector.py lines 188-223),
with Python 2 evaluation order preserved: the file_format_version check uses
Python 2 mixed-type comparison; the subsets length check on line 206 runs
before the has_key and type check on line 209, so a missing subsets key
surfaces as a KeyError and an unsized subsets value as a TypeError; calling
any of the checks on a non-dict document fails like has_key on a non-dict
does, with an AttributeError. -/
def validate_selector_input (selector_dict : Json) : Except PyErr Unit := do
  match selector_dict with
  | Json.obj d =>
    if !(hasKey d "file_format_version") then
      Except.error (PyErr.valueError "UnsupportedSelectorVersion")
    else do
      let v ← dictGet d "file_format_version"
      if py2LtInt v 1 || py2GtInt v 3 then
        Except.error (PyErr.valueError "UnsupportedSelectorVersion")
      else if !(hasKey d "duration") then
        Except.error (PyErr.valueError "UnsupportedDuration")
      else if !(hasKey d "metric") then
        Except.error (PyErr.valueError "UnsupportedMetric")
      else do
        let mv ← dictGet d "metric"
        match mv with
        | Json.str metric =>
          if !(supported_metrics.any (fun kv => kv.1 == metric)) && metric ≠ "all" then
            Except.error (PyErr.valueError "UnsupportedMetric")
          else do
            let sv ← dictGet d "subsets"
            let n ← pyLen sv
            if n > 2 || n < 1 then
              Except.error (PyErr.valueError "UnsupportedSubsetSize")
            else if !(hasKey d "subsets") || !(isListJson sv) then
              Except.error (PyErr.valueError "UnsupportedSubsets")
            else do
              match sv with
              | Json.arr ss => do
                ss.forM (fun tuple_set => do
                  let ks ← pyKeys tuple_set
                  if sortStr ks ≠ sortStr supported_subset_keys then
                    Except.error (PyErr.valueError "UnsupportedSubsetDefinition")
                  else Except.ok ())
                if ss.length = 2 then do
                  let _ ← find_independent_variable ss
                  Except.ok ()
                else Except.ok ()
              | _ => Except.error (PyErr.typeError "not a list")
        | _ => Except.error (PyErr.valueError "UnsupportedMetric")
  | _ => Except.error (PyErr.attributeError "has_key")

/-- One fully resolved dataset-selection request (selector.py lines 28-48). -/
structure Selector where
  start_time : Dt
  duration : Nat
  metric : String
  ip_translation_spec : IPTranslationStrategySpec
  client_provider : Json
  site_name : Json
  mlab_project : String

/-- Build the Selector for one (subset, metric) pair, in the statement order
of selector.py lines 102-109. -/
def build_selector (root : Json) (subset : Json) (metric : String) : Except PyErr Selector := do
  let st_raw ← pyGetItemStr subset "start_time"
  let st ← match st_raw with
           | Json.str s => parse_start_time s
           | _ => Except.error (PyErr.typeError "strptime argument must be str")
  let dur_raw ← pyGetItemStr root "duration"
  let dur ← match dur_raw with
            | Json.str s => parse_duration s
            | _ => Except.error (PyErr.typeError "expected string or buffer")
  let ipt_raw ← pyGetItemStr root "ip_translation"
  let ipt ← parse_ip_translation ipt_raw
  let cp ← pyGetItemStr subset "client_provider"
  let site ← pyGetItemStr subset "site"
  let proj ← match supported_metrics.find? (fun kv : String × String => kv.1 == metric) with
             | some kv => Except.ok kv.2
             | none => Except.error (PyErr.keyError metric)
  Except.ok ⟨st, dur, metric, ipt, cp, site, proj⟩

/-- SelectorFileParser._parse_file_contents (selector.py lines 89-113):
json.loads with no surrounding exception handler (a decode failure
propagates unchanged), validation, expansion of metric all into every
supported metric, and one Selector per subset-metric pair. -/
def parse_file_contents (selector_file_contents : String) : Except PyErr (List Selector) := do
  match json_loads selector_file_contents with
  | Except.error e => Except.error e
  | Except.ok selector_input_json => do
    validate_selector_input selector_input_json
    let mv ← pyGetItemStr selector_input_json "metric"
    let metrics := match mv with
                   | Json.str m =>
                     if m = "all" then supported_metrics.map (fun kv : String × String => kv.1)
                     else [m]
                   | _ => []
    let sv ← pyGetItemStr selector_input_json "subsets"
    match sv with
    | Json.arr ss =>
      ss.foldlM (fun acc subset => do
        metrics.foldlM (fun acc2 metric => do
          let sel ← build_selector selector_input_json subset metric
          Except.ok (acc2 ++ [sel])) acc) []
    | _ => Except.error (PyErr.typeError "not iterable")

/-- Linear index of a calendar month (year times 12 plus month-1), the order
in which rrule.MONTHLY enumerates month starts. -/
def monthIdx (t : Dt) : Nat := t.year * 12 + (t.month - 1)

/-- Python datetime minus timedelta(seconds = 1) at second granularity, with
the usual borrow chain through minute, hour, day, month and year. (Python
raises OverflowError on the minimum datetime; the theorems only apply this
to datetimes strictly above the minimum.) -/
def minusOneSecond (t : Dt) : Dt :=
  if t.second > 0 then { t with second := t.second - 1 }
  else if t.minute > 0 then { t with minute := t.minute - 1, second := 59 }
  else if t.hour > 0 then { t with hour := t.hour - 1, minute := 59, second := 59 }
  else if t.day > 1 then { t with day := t.day - 1, hour := 23, minute := 59, second := 59 }
  else if t.month > 1 then
    { t with month := t.month - 1, day := daysInMonth t.year (t.month - 1),
             hour := 23, minute := 59, second := 59 }
  else
    { year := t.year - 1, month := 12, day := 31, hour := 23, minute := 59, second := 59 }

/-- Two-digit zero padding, strftime percent-m. -/
def pad2 (n : Nat) : String := if n < 10 then "0" ++ toString n else toString n

/-- Four-digit zero padding, strftime percent-Y. -/
def pad4 (n : Nat) : String :=
  if n < 10 then "000" ++ toString n
  else if n < 100 then "00" ++ toString n
  else if n < 1000 then "0" ++ toString n
  else toString n

/-- BigQueryQueryGenerator.database_name (query.py line 30). -/
def database_name : String := "measurement-lab"

/-- Shard table name for the month with the given linear index:
BigQueryQueryGenerator.table_format (query.py line 31) instantiated with the
database name and the month's strftime Y_m date. -/
def tableNameOfIdx (k : Nat) : String :=
  "[" ++ database_name ++ ":m_lab." ++ pad4 (k / 12) ++ "_" ++ pad2 (k % 12 + 1) ++ "]"

/-- BigQueryQueryGenerator._build_table_list (query.py lines 51-85): floor
the start to the first of its month; subtract one second from the end and
take the last second of that month as the inclusive bound; rrule.MONTHLY
then yields one table per month from the floored start through that bound. -/
def build_table_list (start_time end_time : Dt) : List String :=
  let start_idx := monthIdx start_time
  let end_inclusive := minusOneSecond end_time
  let end_idx := monthIdx end_inclusive
  (List.range (end_idx + 1 - start_idx)).map (fun i => tableNameOfIdx (start_idx + i))

/-- Days between a Gregorian civil date and 1970-01-01 (the standard
era/year-of-era formula); only used to print the numeric epoch-second bounds
of the log-time predicate, mirroring the datetime subtraction against
utils.unix_timestamp_to_utc_datetime(0) in query.py lines 183-185. -/
def daysFromCivil (y m d : Nat) : Int :=
  let yAdj : Int := (y : Int) - (if m ≤ 2 then 1 else 0)
  let era : Int := yAdj.ediv 400
  let yoe : Int := yAdj - era * 400
  let mp : Int := (((m : Int) + 9).emod 12)
  let doy : Int := (153 * mp + 2).ediv 5 + (d : Int) - 1
  let doe : Int := yoe * 365 + yoe.ediv 4 - yoe.ediv 100 + doy
  era * 146097 + doe - 719468

/-- UTC epoch seconds of a datetime, as int(total_seconds()) of the
difference from the epoch computes them. -/
def toEpochSeconds (t : Dt) : Int :=
  daysFromCivil t.year t.month t.day * 86400 +
    (t.hour : Int) * 3600 + (t.minute : Int) * 60 + (t.second : Int)

/-- Baseline select fields every query requests (query.py lines 89-92). -/
def baseline_select_fields : List String :=
  ["web100_log_entry.log_time",
   "connection_spec.data_direction",
   "web100_log_entry.snap.State"]

/-- metric_data_directions s2c entry (query.py lines 94-99). -/
def metric_data_directions_s2c : List String :=
  ["web100_log_entry.snap.HCThruOctetsAcked",
   "web100_log_entry.snap.SndLimTimeRwin",
   "web100_log_entry.snap.SndLimTimeCwnd",
   "web100_log_entry.snap.SndLimTimeSnd",
   "web100_log_entry.snap.CongSignals"]

/-- metric_data_directions c2s entry (query.py lines 100-102). -/
def metric_data_directions_c2s : List String :=
  ["web100_log_entry.snap.HCThruOctetsReceived",
   "web100_log_entry.snap.Duration"]

/-- metric_types (query.py lines 105-117): the per-metric field lists. -/
def metric_types : List (String × List String) :=
  [("upload_throughput", [] ++ metric_data_directions_c2s),
   ("download_throughput", [] ++ metric_data_directions_s2c),
   ("minimum_rtt",
     ["web100_log_entry.snap.MinRTT", "web100_log_entry.snap.CountRTT"] ++
       metric_data_directions_s2c),
   ("average_rtt",
     ["web100_log_entry.snap.SumRTT", "web100_log_entry.snap.CountRTT"] ++
       metric_data_directions_s2c),
   ("packet_retransmit_rate",
     ["web100_log_entry.snap.SegsRetrans", "web100_log_entry.snap.DataSegsOut"] ++
       metric_data_directions_s2c),
   ("hop_count",
     ["test_id", "paris_traceroute_hop.dest_ip", "paris_traceroute_hop.src_ip",
      "connection_spec.client_ip", "connection_spec.server_ip", "log_time"])]

/-- First-occurrence deduplication, the effect of pouring a list into a
Python set before the result is sorted (set iteration order is irrelevant
once sorted). -/
def dedupStr (l : List String) : List String :=
  l.foldl (fun acc s => if acc.contains s then acc else acc ++ [s]) []

/-- BigQueryQueryGenerator._build_select_list (query.py lines 87-128): the
union of the baseline fields with the chosen metric's field list, sorted
ascending. The branch for the metric named all reads the name metrics_types,
which is bound nowhere in the function or module (the defined table is
metric_types), so Python raises a NameError there; an unknown metric raises
ValueError UnsupportedMetric. -/
def build_select_list (metric : String) : Except PyErr (List String) :=
  if metric = "all" then Except.error (PyErr.nameError "metrics_types")
  else
    match metric_types.find? (fun kv : String × List String => kv.1 == metric) with
    | some kv => Except.ok (sortStr (dedupStr (baseline_select_fields ++ kv.2)))
    | none => Except.error (PyErr.valueError "UnsupportedMetric")

/-- BigQueryQueryGenerator._add_data_direction_conditional (query.py lines
195-199): the single data-direction predicate stored for the metric, or
nothing for metrics in neither list. -/
def data_direction_conditional (metric : String) : Option String :=
  if metric = "download_throughput" || metric = "minimum_rtt" || metric = "average_rtt" ||
      metric = "packet_retransmit_rate" then
    some "connection_spec.data_direction == 1"
  else if metric = "upload_throughput" then
    some "connection_spec.data_direction == 0"
  else none

/-- BigQueryQueryGenerator._add_log_time_conditional (query.py lines
176-193): the single half-open epoch-second range predicate added to the
log_time set, on the schema-dependent time field. -/
def log_time_conditional (start_time end_time : Dt) (is_web100 : Bool) : String :=
  let start_s := toEpochSeconds start_time
  let end_s := toEpochSeconds end_time
  let log_entry_fieldname := if is_web100 then "web100_log_entry.log_time" else "log_time"
  "(" ++ log_entry_fieldname ++ " >= " ++ toString start_s ++ ") AND (" ++
    log_entry_fieldname ++ " < " ++ toString end_s ++ ")"

/-- First-occurrence deduplication of IP blocks (the set() on query.py line
203). -/
def dedupBlocks (l : List (Nat × Nat)) : List (Nat × Nat) :=
  l.foldl (fun acc s => if acc.contains s then acc else acc ++ [s]) []

/-- Ordered insertion by range start, modelling sorted(..., key = block[0])
on query.py line 208. -/
def insertBlock (x : Nat × Nat) : List (Nat × Nat) → List (Nat × Nat)
  | [] => [x]
  | y :: ys => if x.1 ≤ y.1 then x :: y :: ys else y :: insertBlock x ys

/-- The deduplicated, start-sorted copy of the client IP blocks computed on
query.py lines 203-208. The emitting loop on line 216 iterates the original
client_ip_blocks argument instead, so this value only feeds the duplicate
warning and is otherwise discarded. -/
def unique_sorted_client_ip_blocks (client_ip_blocks : List (Nat × Nat)) : List (Nat × Nat) :=
  (dedupBlocks client_ip_blocks).foldr insertBlock []

/-- BigQueryQueryGenerator._add_client_network_blocks_conditional (query.py
lines 201-221): one BETWEEN predicate per entry of the original
client_ip_blocks argument, in argument order (see
unique_sorted_client_ip_blocks for the computed-but-unused deduplication). -/
def client_network_blocks_conditional (client_ip_blocks : List (Nat × Nat))
    (is_web100 : Bool) : List String :=
  let remote_ip_fieldname :=
    if is_web100 then "web100_log_entry.connection_spec.remote_ip"
    else "connection_spec.client_ip"
  client_ip_blocks.map (fun block =>
    "PARSE_IP(" ++ remote_ip_fieldname ++ ") BETWEEN " ++ toString block.1 ++
      " AND " ++ toString block.2)

/-- The single-quote character, kept out of string literals as an escape. -/
def sq : String := "\x27"

/-- BigQueryQueryGenerator._add_server_ips_conditional (query.py lines
223-241): deduplicate the server IPs, sort ascending, and emit one equality
predicate per unique IP on the schema-dependent local-IP field. -/
def server_ips_conditional (server_ips : List String) (is_web100 : Bool) : List String :=
  let unique_server_ips := sortStr (dedupStr server_ips)
  let local_ip_fieldname :=
    if is_web100 then "web100_log_entry.connection_spec.local_ip"
    else "connection_spec.server_ip"
  unique_server_ips.map (fun server_ip => local_ip_fieldname ++ " = " ++ sq ++ server_ip ++ sq)

/-- Fields required non-null for the ndt schema (query.py lines 135-140). -/
def non_null_fields_ndt : List String :=
  ["connection_spec.data_direction",
   "web100_log_entry.is_last_entry",
   "web100_log_entry.snap.HCThruOctetsAcked",
   "web100_log_entry.snap.CongSignals",
   "web100_log_entry.connection_spec.remote_ip",
   "web100_log_entry.connection_spec.local_ip"]

/-- Schema guard predicates chosen by project (query.py lines 134-146). -/
def tool_specific_conditions (mlab_project : String) : List String :=
  if mlab_project = "ndt" then ["project = 0", "web100_log_entry.is_last_entry = True"]
  else if mlab_project = "paris_traceroute" then ["project = 3"]
  else []

/-- IS NOT NULL guard list; non_null_fields is only populated for ndt
(query.py lines 133-150). -/
def non_null_conditions (mlab_project : String) : List String :=
  if mlab_project = "ndt" then non_null_fields_ndt.map (fun f => f ++ " IS NOT NULL")
  else []

/-- Python str.join as the code uses it. -/
def strJoin (sep : String) : List String → String
  | [] => ""
  | [x] => x
  | x :: xs => x ++ sep ++ strJoin sep xs

/-- WHERE-clause body assembled exactly as _create_query_string does
(query.py lines 148-168): the joined guard conditions, then the optional
data-direction predicate, the parenthesized log-time group, the
parenthesized server-IP group and the parenthesized client-network-block
group, each appended with the AND separator. -/
def create_conditional_string (mlab_project : String) (data_direction : Option String)
    (log_time : String) (server_ips client_blocks : List String) : String :=
  let base := strJoin "\n\tAND "
    (non_null_conditions mlab_project ++ tool_specific_conditions mlab_project)
  let s1 := match data_direction with
            | some dir => base ++ "\n\tAND " ++ dir
            | none => base
  let s2 := s1 ++ "\n\tAND (" ++ strJoin " OR\n\t" [log_time] ++ ")"
  let s3 := s2 ++ "\n\tAND (" ++ strJoin " OR\n\t\t" server_ips ++ ")"
  s3 ++ "\n\tAND (" ++ strJoin " OR\n\t\t" client_blocks ++ ")"

/-- The top-level AND-ed conjuncts of the WHERE clause in assembly order;
for the ndt and paris_traceroute schema variants the assembled conditional
string is exactly these joined with the AND separator (proved in
create_conditional_string_eq_conjuncts). -/
def query_conjuncts (mlab_project : String) (data_direction : Option String)
    (log_time : String) (server_ips client_blocks : List String) : List String :=
  non_null_conditions mlab_project ++ tool_specific_conditions mlab_project ++
    (match data_direction with | some d => [d] | none => []) ++
    ["(" ++ strJoin " OR\n\t" [log_time] ++ ")",
     "(" ++ strJoin " OR\n\t\t" server_ips ++ ")",
     "(" ++ strJoin " OR\n\t\t" client_blocks ++ ")"]

/-- BigQueryQueryGenerator._create_query_string (query.py lines 130-174):
the full SELECT / FROM / WHERE string. -/
def create_query_string (mlab_project : String) (select_list table_list : List String)
    (data_direction : Option String) (log_time : String)
    (server_ips client_blocks : List String) : String :=
  "SELECT\n\t" ++ strJoin ",\n\t" select_list ++ "\nFROM\n\t" ++
    strJoin ",\n\t" table_list ++ "\nWHERE\n\t" ++
    create_conditional_string mlab_project data_direction log_time server_ips client_blocks

/-- BigQueryQueryGenerator construction (query.py lines 33-43): build the
select list (which can raise), the table list and the four conditional
groups, then assemble the query; the observable result is the pair of the
query() string and the table_span() count. -/
def bigquery_generator (start_time end_time : Dt) (metric mlab_project : String)
    (server_ips : List String) (client_ip_blocks : List (Nat × Nat)) :
    Except PyErr (String × Nat) := do
  let select_list ← build_select_list metric
  let table_list := build_table_list start_time end_time
  let is_web100 := mlab_project ≠ "paris_traceroute"
  let data_direction := data_direction_conditional metric
  let log_time := log_time_conditional start_time end_time is_web100
  let client_blocks := client_network_blocks_conditional client_ip_blocks is_web100
  let server := server_ips_conditional server_ips is_web100
  Except.ok
    (create_query_string mlab_project select_list table_list data_direction log_time
      server client_blocks,
     table_list.length)

/-- WHERE-clause conjuncts of the query generated for the given constructor
arguments: query_conjuncts applied to the four conditional groups exactly as
the constructor computes them. -/
def generator_conjuncts (start_time end_time : Dt) (metric mlab_project : String)
    (server_ips : List String) (client_ip_blocks : List (Nat × Nat)) : List String :=
  let is_web100 := mlab_project ≠ "paris_traceroute"
  query_conjuncts mlab_project (data_direction_conditional metric)
    (log_time_conditional start_time end_time is_web100)
    (server_ips_conditional server_ips is_web100)
    (client_network_blocks_conditional client_ip_blocks is_web100)

/-- Whether one entry of the first subset disagrees with the second subset:
the value stored under the same key differs (or the key is absent from the
second subset). -/
def diffPred (s1 : Json) (kv : String × Json) : Bool :=
  match pyGetItemStr s1 kv.1 with
  | Except.ok v1 => !(jsonBeq kv.2 v1)
  | Except.error _ => true

/-- Keys of the first subset whose values differ from the second subset's
value under the same key; find_independent_variable succeeds exactly when
this list is a singleton. -/
def differingKeys (s0 : List (String × Json)) (s1 : Json) : List String :=
  (s0.filter (diffPred s1)).map (fun kv => kv.1)

/-- First instant of the calendar month with the given linear index. -/
def firstOfMonth (k : Nat) : Dt := ⟨k / 12, k % 12 + 1, 1, 0, 0, 0⟩

/-- The minimum Python datetime (datetime.min at second granularity). -/
def minDt : Dt := ⟨1, 1, 1, 0, 0, 0⟩

/-- Shape of every match of the pattern [0-9]+[a-zA-Z]+: a nonempty digit
run followed by a nonempty letter run. -/
def isSegment (seg : List Char) : Prop :=
  ∃ ds ls, seg = ds ++ ls ∧ ds ≠ [] ∧ ls ≠ [] ∧
    (∀ c ∈ ds, isDigitChar c = true) ∧ (∀ c ∈ ls, isAlphaChar c = true)

/-- C7: parse_duration sums its (integer, unit) segments into seconds:
parse_duration of 1d2h equals 93600 and of 30d equals 2592000; 30x raises
UnsupportedSelectorDurationType and the empty string raises
UnsupportedSelectorDuration. -/
theorem parse_duration_examples :
    parse_duration "1d2h" = Except.ok 93600 ∧
    parse_duration "30d" = Except.ok 2592000 ∧
    parse_duration "30x" =
      Except.error (PyErr.valueError "UnsupportedSelectorDurationType") ∧
    parse_duration "" =
      Except.error (PyErr.valueError "UnsupportedSelectorDuration") :=
  ⟨by decide, by decide, by decide, by decide⟩

/-- C2: constructing the select list for the metric named all reaches the
branch that references the undefined collection metrics_types and fails with
a NameError instead of returning a field list, while every metric in the
fixed supported table returns normally. -/
theorem build_select_list_all_fails_supported_ok :
    build_select_list "all" = Except.error (PyErr.nameError "metrics_types") ∧
    (∀ m ∈ metric_types.map (fun kv : String × List String => kv.1),
      ∃ l, build_select_list m = Except.ok l) := by
  refine ⟨rfl, ?_⟩
  intro m hm
  simp only [metric_types, List.map_cons, List.map_nil, List.mem_cons,
    List.not_mem_nil, or_false] at hm
  rcases hm with rfl | rfl | rfl | rfl | rfl | rfl <;> exact ⟨_, rfl⟩

/-- Witness for C2: the supported metric upload_throughput, which is in the
fixed table, gets a select list. -/
theorem build_select_list_all_fails_supported_ok_witness :
    ∃ l, build_select_list "upload_throughput" = Except.ok l :=
  build_select_list_all_fails_supported_ok.2 "upload_throughput" (by decide)

/-- C8: for every supported metric the constructed select list is sorted
ascending lexicographically and contains the three baseline fields (log
time, data direction, connection-state snapshot). -/
theorem build_select_list_sorted_and_baseline :
    ∀ m ∈ metric_types.map (fun kv : String × List String => kv.1),
      ∃ l, build_select_list m = Except.ok l ∧ isSortedLeStr l = true ∧
        ∀ f ∈ baseline_select_fields, f ∈ l := by
  intro m hm
  simp only [metric_types, List.map_cons, List.map_nil, List.mem_cons,
    List.not_mem_nil, or_false] at hm
  rcases hm with rfl | rfl | rfl | rfl | rfl | rfl <;>
    exact ⟨_, rfl, by decide, by decide⟩

/-- Witness for C8: the select list of hop_count is sorted and contains the
baseline fields. -/
theorem build_select_list_sorted_and_baseline_witness :
    ∃ l, build_select_list "hop_count" = Except.ok l ∧ isSortedLeStr l = true ∧
      ∀ f ∈ baseline_select_fields, f ∈ l :=
  build_select_list_sorted_and_baseline "hop_count" (by decide)

/-- C1 (failing input): for the duplicated client-IP-block input
[(1,2),(1,2)] the code emits one BETWEEN predicate per original entry - two
identical predicates rather than one per distinct value - because the loop
on query.py line 216 iterates client_ip_blocks instead of the deduplicated
sorted copy it just computed; with input [(5,9),(1,2)] the predicates also
stay in argument order rather than ascending range-start order. The
server-IP side does deduplicate and sort as the claim states. -/
theorem client_network_blocks_keep_duplicates_eval :
    client_network_blocks_conditional [(1, 2), (1, 2)] true =
      ["PARSE_IP(web100_log_entry.connection_spec.remote_ip) BETWEEN 1 AND 2",
       "PARSE_IP(web100_log_entry.connection_spec.remote_ip) BETWEEN 1 AND 2"] ∧
    unique_sorted_client_ip_blocks [(1, 2), (1, 2)] = [(1, 2)] ∧
    client_network_blocks_conditional [(5, 9), (1, 2)] true =
      ["PARSE_IP(web100_log_entry.connection_spec.remote_ip) BETWEEN 5 AND 9",
       "PARSE_IP(web100_log_entry.connection_spec.remote_ip) BETWEEN 1 AND 2"] ∧
    server_ips_conditional ["2.2.2.2", "1.1.1.1", "2.2.2.2"] true =
      ["web100_log_entry.connection_spec.local_ip = " ++ sq ++ "1.1.1.1" ++ sq,
       "web100_log_entry.connection_spec.local_ip = " ++ sq ++ "2.2.2.2" ++ sq] :=
  ⟨rfl, rfl, rfl, rfl⟩

/-- C4 (counterexample): on input text that is not valid JSON, parsing fails
with the json module's decode ValueError, which is not the MalformedInput
kind the claim names. -/
theorem parse_file_contents_invalid_json_error_kind :
    parse_file_contents "not json" = Except.error PyErr.jsonDecodeError ∧
    PyErr.jsonDecodeError ≠ PyErr.valueError "MalformedInput" :=
  ⟨rfl, by decide⟩

/-- C4 (amended): _parse_file_contents wraps json.loads in no handler, so
for every input the json module rejects, parsing fails with the json decode
error itself, and that error is never the MalformedInput kind. -/
theorem parse_file_contents_propagates_json_error :
    ∀ (s : String) (e : PyErr), json_loads s = Except.error e →
      parse_file_contents s = Except.error e ∧ e = PyErr.jsonDecodeError := by
  intro s e h
  have he : e = PyErr.jsonDecodeError := by
    unfold json_loads at h
    rcases hp : parseJsonVal (s.length * 2 + 8) s.data with _ | ⟨j, rest⟩
    · rw [hp] at h
      exact (Except.error.inj h).symm
    · rw [hp] at h
      by_cases hw : (skipWs rest).isEmpty
      · simp [hw] at h
      · simp [hw] at h
        exact h.symm
  subst he
  refine ⟨?_, rfl⟩
  unfold parse_file_contents
  rw [h]

/-- Witness for C4 (amended): the concrete non-JSON input discharges the
hypothesis. -/
theorem parse_file_contents_propagates_json_error_witness :
    parse_file_contents "not json" = Except.error PyErr.jsonDecodeError ∧
      PyErr.jsonDecodeError = PyErr.jsonDecodeError :=
  parse_file_contents_propagates_json_error "not json" PyErr.jsonDecodeError rfl

/-- C3 (counterexample): a selector object with valid version, duration and
metric but no subsets key makes validation fail with a KeyError from the
subscript on selector.py line 206, which runs before the has_key check on
line 209, not with the UnsupportedSubsets kind the claim names. -/
theorem validate_missing_subsets_raises_keyerror :
    validate_selector_input (Json.obj
      [("file_format_version", Json.num 1), ("duration", Json.str "30d"),
       ("metric", Json.str "download_throughput")]) =
      Except.error (PyErr.keyError "subsets") ∧
    (Except.error (PyErr.keyError "subsets") : Except PyErr Unit) ≠
      Except.error (PyErr.valueError "UnsupportedSubsets") :=
  ⟨rfl, by decide⟩

/-- With a differing key already recorded, the comparison loop fails with
IncomparableSets as soon as any further entry differs, and otherwise keeps
the recorded key. -/
theorem fiv_loop_some (s1 : Json) :
    ∀ (l : List (String × Json)) (k0 : String),
      (∀ kv ∈ l, ∃ v1, pyGetItemStr s1 kv.1 = Except.ok v1) →
      fiv_loop s1 l (some k0) =
        (if (l.filter (diffPred s1)).isEmpty then Except.ok (some k0)
         else Except.error (PyErr.valueError "IncomparableSets")) := by
  intro l
  induction l with
  | nil => intro k0 _; rfl
  | cons kv rest ih =>
    intro k0 hall
    obtain ⟨v1, hv1⟩ := hall kv (List.mem_cons_self _ _)
    have hrest : ∀ kv2 ∈ rest, ∃ v2, pyGetItemStr s1 kv2.1 = Except.ok v2 :=
      fun kv2 h2 => hall kv2 (List.mem_cons_of_mem _ h2)
    obtain ⟨key, v0⟩ := kv
    simp only [fiv_loop, hv1]
    by_cases hd : jsonBeq v0 v1
    · have hp : diffPred s1 (key, v0) = false := by simp [diffPred, hv1, hd]
      simp only [hd, Bool.not_true, Bool.false_eq_true, if_false, List.filter_cons, hp]
      exact ih k0 hrest
    · have hf : jsonBeq v0 v1 = false := Bool.eq_false_iff.mpr hd
      have hp : diffPred s1 (key, v0) = true := by simp [diffPred, hv1, hf]
      simp [hf, List.filter_cons, hp]

/-- With no differing key recorded yet, the comparison loop returns the sole
differing key, or nothing when none differs, or fails with IncomparableSets
when at least two differ. -/
theorem fiv_loop_none (s1 : Json) :
    ∀ l : List (String × Json),
      (∀ kv ∈ l, ∃ v1, pyGetItemStr s1 kv.1 = Except.ok v1) →
      fiv_loop s1 l none =
        (match (l.filter (diffPred s1)).map (fun kv => kv.1) with
         | [] => Except.ok none
         | [k] => Except.ok (some k)
         | _ :: _ :: _ => Except.error (PyErr.valueError "IncomparableSets")) := by
  intro l
  induction l with
  | nil => intro _; rfl
  | cons kv rest ih =>
    intro hall
    obtain ⟨v1, hv1⟩ := hall kv (List.mem_cons_self _ _)
    have hrest : ∀ kv2 ∈ rest, ∃ v2, pyGetItemStr s1 kv2.1 = Except.ok v2 :=
      fun kv2 h2 => hall kv2 (List.mem_cons_of_mem _ h2)
    obtain ⟨key, v0⟩ := kv
    simp only [fiv_loop, hv1]
    by_cases hd : jsonBeq v0 v1
    · have hp : diffPred s1 (key, v0) = false := by simp [diffPred, hv1, hd]
      simp only [hd, Bool.not_true, Bool.false_eq_true, if_false, List.filter_cons, hp]
      exact ih hrest
    · have hf : jsonBeq v0 v1 = false := Bool.eq_false_iff.mpr hd
      have hp : diffPred s1 (key, v0) = true := by simp [diffPred, hv1, hf]
      rw [fiv_loop_some s1 rest key hrest]
      simp only [hf, Bool.not_false, if_true, List.filter_cons, hp, List.map_cons]
      rcases hfr : rest.filter (diffPred s1) with _ | ⟨a, tl⟩
      · simp [hfr]
      · simp [hfr]

/-- C6: for subsets whose every first-subset key resolves in the second
subset (in particular for any two subsets over the same key set), the model
of find_independent_variable returns the unique differing key when exactly
one key differs, raises the NoIndependentVariable kind when none differs,
and raises the IncomparableSets kind when two or more differ. -/
theorem find_independent_variable_cases (s0 : List (String × Json)) (s1 : Json)
    (hall : ∀ kv ∈ s0, ∃ v1, pyGetItemStr s1 kv.1 = Except.ok v1) :
    (∀ k, differingKeys s0 s1 = [k] →
      find_independent_variable [Json.obj s0, s1] = Except.ok k) ∧
    (differingKeys s0 s1 = [] →
      find_independent_variable [Json.obj s0, s1] =
        Except.error (PyErr.exception "NoIndependentVariable")) ∧
    (2 ≤ (differingKeys s0 s1).length →
      find_independent_variable [Json.obj s0, s1] =
        Except.error (PyErr.valueError "IncomparableSets")) := by
  have hrun : find_independent_variable [Json.obj s0, s1] =
      (match fiv_loop s1 s0 none with
       | Except.error e => Except.error e
       | Except.ok none => Except.error (PyErr.exception "NoIndependentVariable")
       | Except.ok (some k) => Except.ok k) := rfl
  rw [hrun, fiv_loop_none s1 s0 hall]
  unfold differingKeys
  refine ⟨?_, ?_, ?_⟩
  · intro k hk
    rw [hk]
  · intro hk
    rw [hk]
  · intro hlen
    rcases hm : (s0.filter (diffPred s1)).map (fun kv => kv.1) with _ | ⟨a, _ | ⟨b, tl⟩⟩
    · rw [hm] at hlen; simp at hlen
    · rw [hm] at hlen; simp at hlen
    · rw [hm]

/-- Witness for C6: two concrete subsets over the key set of a selector
file, differing exactly in client_provider. -/
theorem find_independent_variable_cases_witness :
    differingKeys
        [("start_time", Json.str "2014-02-01T00:00:00Z"),
         ("client_provider", Json.str "comcast"), ("site", Json.str "lga01")]
        (Json.obj [("start_time", Json.str "2014-02-01T00:00:00Z"),
         ("client_provider", Json.str "verizon"), ("site", Json.str "lga01")]) =
      ["client_provider"] ∧
    find_independent_variable
        [Json.obj [("start_time", Json.str "2014-02-01T00:00:00Z"),
          ("client_provider", Json.str "comcast"), ("site", Json.str "lga01")],
         Json.obj [("start_time", Json.str "2014-02-01T00:00:00Z"),
          ("client_provider", Json.str "verizon"), ("site", Json.str "lga01")]] =
      Except.ok "client_provider" := by
  refine ⟨rfl, ?_⟩
  exact (find_independent_variable_cases _ _
    (by intro kv hkv; fin_cases hkv <;> exact ⟨_, rfl⟩)).1 "client_provider" rfl

/-- Digit characters are not letters. -/
theorem digit_not_alpha {c : Char} (h : isDigitChar c = true) : isAlphaChar c = false := by
  unfold isDigitChar at h
  unfold isAlphaChar
  simp at h ⊢
  omega

/-- Letter characters are not digits. -/
theorem alpha_not_digit {c : Char} (h : isAlphaChar c = true) : isDigitChar c = false := by
  unfold isAlphaChar at h
  unfold isDigitChar
  simp at h ⊢
  omega

/-- takeWhile walks through a prefix on which the predicate always holds. -/
theorem takeWhile_append_all (p : Char → Bool) :
    ∀ (l1 l2 : List Char), (∀ c ∈ l1, p c = true) →
      List.takeWhile p (l1 ++ l2) = l1 ++ List.takeWhile p l2 := by
  intro l1
  induction l1 with
  | nil => intro l2 _; simp
  | cons a as ih =>
    intro l2 h
    have ha : p a = true := h a (List.mem_cons_self _ _)
    simp only [List.cons_append, List.takeWhile_cons, ha, if_true]
    rw [ih l2 (fun c hc => h c (List.mem_cons_of_mem _ hc))]

/-- dropWhile discards a prefix on which the predicate always holds. -/
theorem dropWhile_append_all (p : Char → Bool) :
    ∀ (l1 l2 : List Char), (∀ c ∈ l1, p c = true) →
      List.dropWhile p (l1 ++ l2) = List.dropWhile p l2 := by
  intro l1
  induction l1 with
  | nil => intro l2 _; simp
  | cons a as ih =>
    intro l2 h
    have ha : p a = true := h a (List.mem_cons_self _ _)
    simp only [List.cons_append, List.dropWhile_cons, ha, if_true]
    exact ih l2 (fun c hc => h c (List.mem_cons_of_mem _ hc))

/-- takeWhile is empty when the head (if any) fails the predicate. -/
theorem takeWhile_eq_nil_of_head (p : Char → Bool) (l : List Char)
    (h : ∀ c, l.head? = some c → p c = false) : List.takeWhile p l = [] := by
  cases l with
  | nil => rfl
  | cons a as => simp [List.takeWhile_cons, h a rfl]

/-- dropWhile is the identity when the head (if any) fails the predicate. -/
theorem dropWhile_eq_self_of_head (p : Char → Bool) (l : List Char)
    (h : ∀ c, l.head? = some c → p c = false) : List.dropWhile p l = l := by
  cases l with
  | nil => rfl
  | cons a as => simp [List.dropWhile_cons, h a rfl]

/-- Every match the scanner produces is a nonempty digit run followed by a
nonempty letter run. -/
theorem findall_go_segment_shape :
    ∀ (fuel : Nat) (l : List Char) (seg : List Char),
      seg ∈ findall_go fuel l → isSegment seg := by
  intro fuel
  induction fuel with
  | zero =>
    intro l seg h
    cases l with
    | nil => simp [findall_go] at h
    | cons c cs => simp [findall_go] at h
  | succ f ih =>
    intro l seg h
    cases l with
    | nil => simp [findall_go] at h
    | cons c cs =>
      by_cases hd : isDigitChar c
      · by_cases he :
            (List.takeWhile isAlphaChar (List.dropWhile isDigitChar (c :: cs))).isEmpty
        · simp only [findall_go, hd, if_true, he] at h
          exact ih cs seg h
        · simp only [findall_go, hd, if_true, he, Bool.false_eq_true, if_false,
            List.mem_cons] at h
          rcases h with rfl | htail
          · refine ⟨List.takeWhile isDigitChar (c :: cs),
              List.takeWhile isAlphaChar (List.dropWhile isDigitChar (c :: cs)),
              rfl, ?_, ?_, ?_, ?_⟩
            · simp [List.takeWhile_cons, hd]
            · intro hnil
              apply he
              rw [hnil]
              rfl
            · exact fun x hx => List.mem_takeWhile_imp hx
            · exact fun x hx => List.mem_takeWhile_imp hx
          · exact ih _ seg htail
      · simp only [findall_go, hd, Bool.false_eq_true, if_false] at h
        exact ih cs seg h

/-- The first character of a concatenation of well-shaped segments is a
digit. -/
theorem join_segments_head_digit :
    ∀ (segs : List (List Char)), (∀ s ∈ segs, isSegment s) →
      ∀ c, (List.flatten segs).head? = some c → isDigitChar c = true := by
  intro segs hall c hc
  induction segs with
  | nil => simp at hc
  | cons seg rest ih =>
    obtain ⟨ds, ls, hseg, hds, _, hdall, _⟩ := hall seg (List.mem_cons_self _ _)
    cases ds with
    | nil => exact absurd rfl hds
    | cons d ds2 =>
      rw [List.flatten_cons, hseg] at hc
      simp at hc
      rw [← hc]
      exact hdall d (List.mem_cons_self _ _)

/-- Re-scanning the concatenation of well-shaped segments recovers exactly
those segments. -/
theorem findall_go_of_segments :
    ∀ (segs : List (List Char)), (∀ s ∈ segs, isSegment s) →
      ∀ fuel, (List.flatten segs).length ≤ fuel →
        findall_go fuel (List.flatten segs) = segs := by
  intro segs
  induction segs with
  | nil =>
    intro _ fuel _
    cases fuel <;> rfl
  | cons seg rest ih =>
    intro hall fuel hfuel
    obtain ⟨ds, ls, hseg, hds, hls, hdall, hlall⟩ := hall seg (List.mem_cons_self _ _)
    have hrest : ∀ s ∈ rest, isSegment s := fun s hs => hall s (List.mem_cons_of_mem _ hs)
    obtain ⟨d, ds2, rfl⟩ : ∃ d ds2, ds = d :: ds2 := by
      cases ds with
      | nil => exact absurd rfl hds
      | cons d ds2 => exact ⟨d, ds2, rfl⟩
    obtain ⟨a, ls2, rfl⟩ : ∃ a ls2, ls = a :: ls2 := by
      cases ls with
      | nil => exact absurd rfl hls
      | cons a ls2 => exact ⟨a, ls2, rfl⟩
    have hjoin : List.flatten (seg :: rest) =
        d :: (ds2 ++ ((a :: ls2) ++ List.flatten rest)) := by
      rw [List.flatten_cons, hseg]
      simp
    have hlen : (List.flatten (seg :: rest)).length =
        seg.length + (List.flatten rest).length := by simp
    have hseglen : 2 ≤ seg.length := by rw [hseg]; simp; omega
    cases fuel with
    | zero =>
      exfalso
      rw [hlen] at hfuel
      omega
    | succ f =>
      rw [hjoin]
      have hd : isDigitChar d = true := hdall d (List.mem_cons_self _ _)
      have hdall2 : ∀ x ∈ d :: ds2, isDigitChar x = true := hdall
      have hlhead : isDigitChar a = false := by
        have := hlall a (List.mem_cons_self _ _)
        exact alpha_not_digit this
      have hjr_head : ∀ c, (List.flatten rest).head? = some c → isAlphaChar c = false :=
        fun c hc => digit_not_alpha (join_segments_head_digit rest hrest c hc)
      have htake : List.takeWhile isDigitChar (d :: (ds2 ++ ((a :: ls2) ++ List.flatten rest))) =
          (d :: ds2) ++ [] := by
        have h1 := takeWhile_append_all isDigitChar (d :: ds2)
          ((a :: ls2) ++ List.flatten rest) hdall2
        rw [List.cons_append] at h1
        rw [h1]
        congr 1
        exact takeWhile_eq_nil_of_head _ _ (fun c hc => by
          simp at hc
          rw [← hc]
          exact hlhead)
      have hdrop : List.dropWhile isDigitChar (d :: (ds2 ++ ((a :: ls2) ++ List.flatten rest))) =
          (a :: ls2) ++ List.flatten rest := by
        have h1 := dropWhile_append_all isDigitChar (d :: ds2)
          ((a :: ls2) ++ List.flatten rest) hdall2
        rw [List.cons_append] at h1
        rw [h1]
        exact dropWhile_eq_self_of_head _ _ (fun c hc => by
          simp at hc
          rw [← hc]
          exact hlhead)
      have htake2 : List.takeWhile isAlphaChar ((a :: ls2) ++ List.flatten rest) =
          a :: ls2 := by
        rw [takeWhile_append_all isAlphaChar (a :: ls2) (List.flatten rest) hlall]
        rw [takeWhile_eq_nil_of_head _ _ hjr_head]
        simp
      have hdrop2 : List.dropWhile isAlphaChar ((a :: ls2) ++ List.flatten rest) =
          List.flatten rest := by
        rw [dropWhile_append_all isAlphaChar (a :: ls2) (List.flatten rest) hlall]
        exact dropWhile_eq_self_of_head _ _ hjr_head
      simp only [findall_go, hd, if_true, hdrop, htake2, htake]
      have hne : (a :: ls2).isEmpty = false := rfl
      simp only [hne, Bool.false_eq_true, if_false, hdrop2]
      have hjrlen : (List.flatten rest).length ≤ f := by
        rw [hlen] at hfuel
        omega
      rw [findall_go_fuel_irrelevant f ((List.flatten rest).length) (List.flatten rest) hjrlen
        le_rfl]
      rw [ih hrest ((List.flatten rest).length) le_rfl]
      rw [hseg]
      simp

/-- C10: parse_duration examines nothing but the [0-9]+[a-zA-Z]+ segments
re.findall extracts: for every input with at least one matched segment, the
result (success or error) equals parse_duration of the matched segments
concatenated alone - every character before, between or after the matched
segments is discarded without effect. -/
theorem parse_duration_uses_only_segments (s : String)
    (_h : 0 < (findall_digits_alpha s.data).length) :
    parse_duration s =
      parse_duration (String.mk (List.flatten (findall_digits_alpha s.data))) := by
  have hsegs : ∀ seg ∈ findall_digits_alpha s.data, isSegment seg :=
    fun seg hm => findall_go_segment_shape _ _ _ hm
  have hrec : findall_digits_alpha
      (String.mk (List.flatten (findall_digits_alpha s.data))).data =
      findall_digits_alpha s.data := by
    show findall_go (List.flatten (findall_digits_alpha s.data)).length
        (List.flatten (findall_digits_alpha s.data)) = findall_digits_alpha s.data
    exact findall_go_of_segments _ hsegs _ le_rfl
  show (if (findall_digits_alpha s.data).length > 0 then _ else _) = _
  rw [parse_duration, hrec]

/-- Witness for C10: a concrete input with leading text, separators and
trailing punctuation around the segments 1d and 2h. -/
theorem parse_duration_uses_only_segments_witness :
    parse_duration "x 1d, 2h!" =
      parse_duration (String.mk (List.flatten (findall_digits_alpha ("x 1d, 2h!").data))) :=
  parse_duration_uses_only_segments "x 1d, 2h!" (by decide)

/-- Strings with equal character lists are equal. -/
theorem strDataEq {a b : String} (h : a.data = b.data) : a = b := by
  cases a
  cases b
  exact congrArg String.mk h

/-- Character list of a string concatenation. -/
theorem strAppend_data (a b : String) : (a ++ b).data = a.data ++ b.data := by
  cases a
  cases b
  rfl

/-- A string that does not start with an opening parenthesis differs from
any parenthesized group. -/
theorem paren_group_ne (t X : String) (h : t.data.head? ≠ some ('(' : Char)) :
    t ≠ ("(" ++ X) ++ ")" := by
  intro he
  apply h
  rw [he, strAppend_data, strAppend_data]
  rfl

/-- For the two schema variants the code instantiates, the WHERE body built
by _create_query_string is exactly the AND-join of the conjunct list. -/
theorem create_conditional_string_eq_conjuncts (p : String)
    (hp : p = "ndt" ∨ p = "paris_traceroute") (dd : Option String)
    (lt : String) (sv cb : List String) :
    create_conditional_string p dd lt sv cb =
      strJoin "\n\tAND " (query_conjuncts p dd lt sv cb) := by
  rcases hp with rfl | rfl <;> rcases dd with _ | d <;>
    · apply strDataEq
      simp only [create_conditional_string, query_conjuncts, non_null_conditions,
        tool_specific_conditions, non_null_fields_ndt,
        strJoin, List.map_cons, List.map_nil, List.cons_append, List.nil_append,
        List.append_nil, strAppend_data, List.append_assoc]

/-- C9: in the generated query's WHERE conjuncts, the metrics
download_throughput, minimum_rtt, average_rtt and packet_retransmit_rate
carry the direction-1 predicate and never the direction-0 predicate;
upload_throughput carries direction-0 and never direction-1; hop_count
carries neither; and for the ndt and paris_traceroute schema variants the
generated query string is exactly the SELECT/FROM/WHERE assembly whose WHERE
body is the AND-join of those conjuncts. -/
theorem data_direction_predicates_in_query
    (s e : Dt) (server_ips : List String) (client_ip_blocks : List (Nat × Nat)) :
    (∀ m ∈ ["download_throughput", "minimum_rtt", "average_rtt", "packet_retransmit_rate"],
      "connection_spec.data_direction == 1" ∈
          generator_conjuncts s e m "ndt" server_ips client_ip_blocks ∧
        "connection_spec.data_direction == 0" ∉
          generator_conjuncts s e m "ndt" server_ips client_ip_blocks) ∧
    ("connection_spec.data_direction == 0" ∈
        generator_conjuncts s e "upload_throughput" "ndt" server_ips client_ip_blocks ∧
      "connection_spec.data_direction == 1" ∉
        generator_conjuncts s e "upload_throughput" "ndt" server_ips client_ip_blocks) ∧
    ("connection_spec.data_direction == 0" ∉
        generator_conjuncts s e "hop_count" "paris_traceroute" server_ips client_ip_blocks ∧
      "connection_spec.data_direction == 1" ∉
        generator_conjuncts s e "hop_count" "paris_traceroute" server_ips client_ip_blocks) ∧
    (∀ (m p : String) (sel : List String) (q : String) (n : Nat),
      (p = "ndt" ∨ p = "paris_traceroute") →
      build_select_list m = Except.ok sel →
      bigquery_generator s e m p server_ips client_ip_blocks = Except.ok (q, n) →
      q = "SELECT\n\t" ++ strJoin ",\n\t" sel ++ "\nFROM\n\t" ++
          strJoin ",\n\t" (build_table_list s e) ++ "\nWHERE\n\t" ++
          strJoin "\n\tAND " (generator_conjuncts s e m p server_ips client_ip_blocks)) := by
  refine ⟨?_, ⟨?_, ?_⟩, ⟨?_, ?_⟩, ?_⟩
  · intro m hm
    fin_cases hm <;>
      refine ⟨by simp [generator_conjuncts, query_conjuncts, non_null_conditions,
        tool_specific_conditions, non_null_fields_ndt, data_direction_conditional], ?_⟩ <;>
      · intro hmem
        simp only [generator_conjuncts, query_conjuncts, non_null_conditions,
          tool_specific_conditions, non_null_fields_ndt, data_direction_conditional,
          List.map_cons, List.map_nil, List.cons_append, List.nil_append,
          List.append_nil, List.mem_cons, List.not_mem_nil, or_false,
          if_true, if_false, reduceIte] at hmem
        simp at hmem
        rcases hmem with h | h | h <;> exact paren_group_ne _ _ (by decide) h
  · simp [generator_conjuncts, query_conjuncts, non_null_conditions,
      tool_specific_conditions, non_null_fields_ndt, data_direction_conditional]
  · intro hmem
    simp only [generator_conjuncts, query_conjuncts, non_null_conditions,
      tool_specific_conditions, non_null_fields_ndt, data_direction_conditional,
      List.map_cons, List.map_nil, List.cons_append, List.nil_append,
      List.append_nil, List.mem_cons, List.not_mem_nil, or_false,
      if_true, if_false, reduceIte] at hmem
    simp at hmem
    rcases hmem with h | h | h <;> exact paren_group_ne _ _ (by decide) h
  · intro hmem
    simp only [generator_conjuncts, query_conjuncts, non_null_conditions,
      tool_specific_conditions, non_null_fields_ndt, data_direction_conditional,
      List.map_cons, List.map_nil, List.cons_append, List.nil_append,
      List.append_nil, List.mem_cons, List.not_mem_nil, or_false,
      if_true, if_false, reduceIte] at hmem
    simp at hmem
    rcases hmem with h | h | h <;> exact paren_group_ne _ _ (by decide) h
  · intro hmem
    simp only [generator_conjuncts, query_conjuncts, non_null_conditions,
      tool_specific_conditions, non_null_fields_ndt, data_direction_conditional,
      List.map_cons, List.map_nil, List.cons_append, List.nil_append,
      List.append_nil, List.mem_cons, List.not_mem_nil, or_false,
      if_true, if_false, reduceIte] at hmem
    simp at hmem
    rcases hmem with h | h | h <;> exact paren_group_ne _ _ (by decide) h
  · intro m p sel q n hp hsel hgen
    unfold bigquery_generator at hgen
    rw [hsel] at hgen
    simp only [Except.bind, bind, pure] at hgen
    have hq : q = create_query_string p sel (build_table_list s e)
        (data_direction_conditional m)
        (log_time_conditional s e (decide (p ≠ "paris_traceroute")))
        (server_ips_conditional server_ips (decide (p ≠ "paris_traceroute")))
        (client_network_blocks_conditional client_ip_blocks
          (decide (p ≠ "paris_traceroute"))) := by
      have := Except.ok.inj hgen
      exact (congrArg Prod.fst this).symm
    rw [hq]
    unfold create_query_string
    rw [create_conditional_string_eq_conjuncts p hp]
    rfl

/-- Witness for C9: concrete constructor inputs; download_throughput carries
the direction-1 conjunct and not direction-0, and the upload_throughput
query string is the documented assembly. -/
theorem data_direction_predicates_in_query_witness :
    ("connection_spec.data_direction == 1" ∈
        generator_conjuncts ⟨2014, 1, 15, 0, 0, 0⟩ ⟨2014, 3, 1, 0, 0, 0⟩
          "download_throughput" "ndt" ["1.1.1.1"] [(1, 2)] ∧
      "connection_spec.data_direction == 0" ∉
        generator_conjuncts ⟨2014, 1, 15, 0, 0, 0⟩ ⟨2014, 3, 1, 0, 0, 0⟩
          "download_throughput" "ndt" ["1.1.1.1"] [(1, 2)]) ∧
    (∃ q n, bigquery_generator ⟨2014, 1, 15, 0, 0, 0⟩ ⟨2014, 3, 1, 0, 0, 0⟩
        "upload_throughput" "ndt" ["1.1.1.1"] [(1, 2)] = Except.ok (q, n) ∧
      q = "SELECT\n\t" ++ strJoin ",\n\t"
            (sortStr (dedupStr (baseline_select_fields ++ metric_data_directions_c2s))) ++
          "\nFROM\n\t" ++
          strJoin ",\n\t" (build_table_list ⟨2014, 1, 15, 0, 0, 0⟩ ⟨2014, 3, 1, 0, 0, 0⟩) ++
          "\nWHERE\n\t" ++
          strJoin "\n\tAND " (generator_conjuncts ⟨2014, 1, 15, 0, 0, 0⟩
            ⟨2014, 3, 1, 0, 0, 0⟩ "upload_throughput" "ndt" ["1.1.1.1"] [(1, 2)])) := by
  constructor
  · exact (data_direction_predicates_in_query _ _ _ _).1 "download_throughput" (by decide)
  · refine ⟨_, _, rfl, ?_⟩
    exact (data_direction_predicates_in_query _ _ _ _).2.2.2
      "upload_throughput" "ndt" _ _ _ (Or.inl rfl) rfl rfl

/-- Every month has between 28 and 31 days. -/
theorem daysInMonth_bounds (y m : Nat) : 28 ≤ daysInMonth y m ∧ daysInMonth y m ≤ 31 := by
  unfold daysInMonth
  split_ifs <;> omega

/-- December has 31 days in every year. -/
theorem daysInMonth_twelve (y : Nat) : daysInMonth y 12 = 31 := rfl

/-- The linear month index is monotone along chronological order on valid
datetimes. -/
theorem monthIdx_mono {a b : Dt} (ha : validDt a) (hb : validDt b) (h : dtLe a b) :
    monthIdx a ≤ monthIdx b := by
  unfold validDt at ha hb
  unfold dtLe dtLt at h
  unfold monthIdx
  omega

/-- Every valid datetime is at least the minimum datetime. -/
theorem minDt_le {a : Dt} (ha : validDt a) : dtLe minDt a := by
  unfold validDt at ha
  unfold dtLe dtLt minDt
  simp only []
  omega

/-- Subtracting one second from a valid datetime above the minimum stays
valid. -/
theorem minusOneSecond_valid {e : Dt} (he : validDt e) (hmin : dtLt minDt e) :
    validDt (minusOneSecond e) := by
  have hb12 : 28 ≤ daysInMonth e.year 12 ∧ daysInMonth e.year 12 ≤ 31 :=
    daysInMonth_bounds _ _
  have hbm : 28 ≤ daysInMonth e.year (e.month - 1) ∧
      daysInMonth e.year (e.month - 1) ≤ 31 := daysInMonth_bounds _ _
  have h31 : daysInMonth (e.year - 1) 12 = 31 := daysInMonth_twelve _
  unfold validDt at he ⊢
  unfold dtLt minDt at hmin
  simp only [] at hmin
  unfold minusOneSecond
  split_ifs <;> dsimp only [] <;> omega

/-- At second granularity, being strictly before e is the same as being at
or before e minus one second. -/
theorem dtLt_iff_le_minusOneSecond {t e : Dt} (ht : validDt t) (he : validDt e)
    (_hmin : dtLt minDt e) : dtLt t e ↔ dtLe t (minusOneSecond e) := by
  have hdim1 : t.year = e.year → t.month = e.month - 1 →
      daysInMonth t.year t.month = daysInMonth e.year (e.month - 1) := by
    intro h1 h2
    rw [h1, h2]
  have hdim2 : t.month = 12 → daysInMonth t.year t.month = 31 := by
    intro h
    rw [h]
    exact daysInMonth_twelve _
  have hbm : 28 ≤ daysInMonth e.year (e.month - 1) ∧
      daysInMonth e.year (e.month - 1) ≤ 31 := daysInMonth_bounds _ _
  unfold validDt at ht he
  unfold minusOneSecond
  unfold dtLe dtLt
  split_ifs <;> dsimp only [] <;> omega

/-- C5: for every valid start strictly before a valid end, the table list is
the image under the shard-naming function of a strictly increasing list of
month indices containing exactly the months that some instant in
[start_time, end_time) falls in; and the two ranges the spec names produce
exactly the 2014_01/2014_02 and the 2014_06 shard tables. -/
theorem build_table_list_months :
    (∀ s e : Dt, validDt s → validDt e → dtLt s e →
      ∃ K : List Nat,
        build_table_list s e = K.map tableNameOfIdx ∧
        K.Pairwise (· < ·) ∧
        (∀ k, k ∈ K ↔ ∃ t : Dt, validDt t ∧ monthIdx t = k ∧ dtLe s t ∧ dtLt t e)) ∧
    build_table_list ⟨2014, 1, 15, 0, 0, 0⟩ ⟨2014, 3, 1, 0, 0, 0⟩ =
      ["[measurement-lab:m_lab.2014_01]", "[measurement-lab:m_lab.2014_02]"] ∧
    build_table_list ⟨2014, 6, 1, 0, 0, 0⟩ ⟨2014, 6, 1, 0, 0, 1⟩ =
      ["[measurement-lab:m_lab.2014_06]"] := by
  refine ⟨?_, by decide, by decide⟩
  intro s e hs he hlt
  have hmin_e : dtLt minDt e := by
    have h1 := minDt_le hs
    unfold dtLe at h1
    unfold dtLt at h1 hlt ⊢
    omega
  have he2 : validDt (minusOneSecond e) := minusOneSecond_valid he hmin_e
  have hse2 : dtLe s (minusOneSecond e) := (dtLt_iff_le_minusOneSecond hs he hmin_e).mp hlt
  have hab : monthIdx s ≤ monthIdx (minusOneSecond e) := monthIdx_mono hs he2 hse2
  refine ⟨(List.range (monthIdx (minusOneSecond e) + 1 - monthIdx s)).map
    (fun i => monthIdx s + i), ?_, ?_, ?_⟩
  · unfold build_table_list
    rw [List.map_map]
    rfl
  · refine List.Pairwise.map _ ?_ (List.pairwise_lt_range _)
    intro x y h
    omega
  · intro k
    have hmem : k ∈ (List.range (monthIdx (minusOneSecond e) + 1 - monthIdx s)).map
        (fun i => monthIdx s + i) ↔
        monthIdx s ≤ k ∧ k ≤ monthIdx (minusOneSecond e) := by
      simp only [List.mem_map, List.mem_range]
      constructor
      · rintro ⟨i, hi, rfl⟩
        omega
      · intro h
        exact ⟨k - monthIdx s, by omega, by omega⟩
    rw [hmem]
    constructor
    · intro hk
      by_cases hka : k = monthIdx s
      · refine ⟨s, hs, hka.symm, ?_, hlt⟩
        unfold dtLe
        right
        exact ⟨rfl, rfl, rfl, rfl, rfl, rfl⟩
      · have hka2 : monthIdx s < k := by omega
        have hk12 : 12 ≤ monthIdx s := by
          unfold validDt at hs
          unfold monthIdx
          omega
        have hfb := daysInMonth_bounds (k / 12) (k % 12 + 1)
        have hvf : validDt (firstOfMonth k) := by
          unfold validDt firstOfMonth
          dsimp only []
          omega
        have hmi : monthIdx (firstOfMonth k) = k := by
          unfold monthIdx firstOfMonth
          dsimp only []
          omega
        have hsf : dtLe s (firstOfMonth k) := by
          unfold validDt at hs
          unfold monthIdx at hka2 hk12
          unfold dtLe dtLt firstOfMonth
          dsimp only []
          omega
        have hfe2 : dtLe (firstOfMonth k) (minusOneSecond e) := by
          unfold validDt at he2
          unfold monthIdx at hk hab
          unfold dtLe dtLt firstOfMonth
          dsimp only []
          omega
        have hfe : dtLt (firstOfMonth k) e :=
          (dtLt_iff_le_minusOneSecond hvf he hmin_e).mpr hfe2
        exact ⟨firstOfMonth k, hvf, hmi, hsf, hfe⟩
    · rintro ⟨t, hvt, rfl, hst, hte⟩
      have h1 : monthIdx s ≤ monthIdx t := monthIdx_mono hs hvt hst
      have hte2 : dtLe t (minusOneSecond e) :=
        (dtLt_iff_le_minusOneSecond hvt he hmin_e).mp hte
      have h2 : monthIdx t ≤ monthIdx (minusOneSecond e) := monthIdx_mono hvt he2 hte2
      exact ⟨h1, h2⟩

/-- Witness for C5: the claim's first concrete range instantiates the
universally quantified part. -/
theorem build_table_list_months_witness :
    ∃ K : List Nat,
      build_table_list ⟨2014, 1, 15, 0, 0, 0⟩ ⟨2014, 3, 1, 0, 0, 0⟩ =
        K.map tableNameOfIdx ∧
      K.Pairwise (· < ·) ∧
      (∀ k, k ∈ K ↔ ∃ t : Dt, validDt t ∧ monthIdx t = k ∧
        dtLe ⟨2014, 1, 15, 0, 0, 0⟩ t ∧ dtLt t ⟨2014, 3, 1, 0, 0, 0⟩) :=
  build_table_list_months.1 ⟨2014, 1, 15, 0, 0, 0⟩ ⟨2014, 3, 1, 0, 0, 0⟩
    (by decide) (by decide) (by decide)

/-- A successful dict lookup means has_key holds. -/
theorem hasKey_of_dictGet {d : PyDict} {k : String} {v : Json}
    (h : dictGet d k = Except.ok v) : hasKey d k = true := by
  unfold dictGet at h
  unfold hasKey
  rcases hf : d.find? (fun kv => kv.1 == k) with _ | kv
  · rw [hf] at h
    cases h
  · have hm := List.mem_of_find?_eq_some hf
    have hp := List.find?_some hf
    exact List.any_eq_true.mpr ⟨kv, hm, hp⟩

/-- C3 (amended): with valid version, duration and metric entries, the
subsets checks behave per the line-206-before-line-209 order: a missing
subsets key surfaces as the KeyError of the subscript; any present sized
subsets value - list, string or object alike - whose length is outside 1..2
raises UnsupportedSubsetSize; a present sized non-list of length 1 or 2
raises UnsupportedSubsets; and a present unsized value surfaces the
TypeError of len. -/
theorem validate_subsets_check_order (d : PyDict) (fv : Int) (m : String)
    (hv : dictGet d "file_format_version" = Except.ok (Json.num fv))
    (h1 : 1 ≤ fv) (h3 : fv ≤ 3)
    (hdur : hasKey d "duration" = true)
    (hm : dictGet d "metric" = Except.ok (Json.str m))
    (hsup : supported_metrics.any (fun kv : String × String => kv.1 == m) = true) :
    (dictGet d "subsets" = Except.error (PyErr.keyError "subsets") →
      validate_selector_input (Json.obj d) = Except.error (PyErr.keyError "subsets")) ∧
    (∀ (v : Json) (n : Nat), dictGet d "subsets" = Except.ok v →
      pyLen v = Except.ok n → (2 < n ∨ n < 1) →
      validate_selector_input (Json.obj d) =
        Except.error (PyErr.valueError "UnsupportedSubsetSize")) ∧
    (∀ v : Json, dictGet d "subsets" = Except.ok v → isListJson v = false →
      ∀ n, pyLen v = Except.ok n → (n = 1 ∨ n = 2) →
      validate_selector_input (Json.obj d) =
        Except.error (PyErr.valueError "UnsupportedSubsets")) ∧
    (∀ v : Json, dictGet d "subsets" = Except.ok v →
      pyLen v = Except.error (PyErr.typeError "object has no len") →
      validate_selector_input (Json.obj d) =
        Except.error (PyErr.typeError "object has no len")) := by
  have hk1 : hasKey d "file_format_version" = true := hasKey_of_dictGet hv
  have hkm : hasKey d "metric" = true := hasKey_of_dictGet hm
  have hlt : py2LtInt (Json.num fv) 1 = false := by
    show decide (fv < 1) = false
    simp only [decide_eq_false_iff_not]
    omega
  have hgt : py2GtInt (Json.num fv) 3 = false := by
    show decide ((3 : Int) < fv) = false
    simp only [decide_eq_false_iff_not]
    omega
  refine ⟨?_, ?_, ?_, ?_⟩
  · intro hmiss
    unfold validate_selector_input
    simp only [hk1, hv, hlt, hgt, hdur, hkm, hsup, hmiss, Bool.not_true, Bool.not_false,
      Bool.false_eq_true, if_false, Bool.or_self, bind, Except.bind, Bool.false_and,
      Bool.and_false, if_true]
    rw [hm]
    simp only [hsup, Bool.not_true, Bool.false_and, Bool.false_eq_true, if_false]
  · intro v n hsv hn hlen
    have hc : (decide (n > 2) || decide (n < 1)) = true := by
      simp only [Bool.or_eq_true, decide_eq_true_eq]
      omega
    unfold validate_selector_input
    simp only [hk1, hv, hlt, hgt, hdur, hkm, hsup, Bool.not_true, Bool.not_false,
      Bool.false_eq_true, if_false, Bool.or_self, bind, Except.bind, Bool.false_and,
      Bool.and_false, if_true]
    rw [hm]
    simp only [hsup, Bool.not_true, Bool.false_and, Bool.false_eq_true, if_false]
    rw [hsv]
    dsimp only []
    rw [hn]
    dsimp only []
    simp only [hc, if_true]
  · intro v hsv hlist n hn hn2
    have hks : hasKey d "subsets" = true := hasKey_of_dictGet hsv
    have hc : (decide (n > 2) || decide (n < 1)) = false := by
      rcases hn2 with rfl | rfl <;> simp
    unfold validate_selector_input
    simp only [hk1, hv, hlt, hgt, hdur, hkm, hsup, Bool.not_true, Bool.not_false,
      Bool.false_eq_true, if_false, Bool.or_self, bind, Except.bind, Bool.false_and,
      Bool.and_false, if_true]
    rw [hm]
    simp only [hsup, Bool.not_true, Bool.false_and, Bool.false_eq_true, if_false]
    rw [hsv]
    dsimp only []
    rw [hn]
    dsimp only []
    simp only [hc, Bool.false_eq_true, if_false, hks, hlist, Bool.not_true, Bool.not_false,
      Bool.false_or, if_true]
  · intro v hsv hnerr
    unfold validate_selector_input
    simp only [hk1, hv, hlt, hgt, hdur, hkm, hsup, Bool.not_true, Bool.not_false,
      Bool.false_eq_true, if_false, Bool.or_self, bind, Except.bind, Bool.false_and,
      Bool.and_false, if_true]
    rw [hm]
    simp only [hsup, Bool.not_true, Bool.false_and, Bool.false_eq_true, if_false]
    rw [hsv]
    dsimp only []
    rw [hnerr]

/-- Witness for C3 (amended): concrete selector objects with valid version,
duration and metric; subsets bound to a string of length three hits the size
check first and raises UnsupportedSubsetSize even though the value is not a
list, while a string of length two passes the size check and raises
UnsupportedSubsets. -/
theorem validate_subsets_check_order_witness :
    validate_selector_input (Json.obj
      [("file_format_version", Json.num 1), ("duration", Json.str "30d"),
       ("metric", Json.str "download_throughput"), ("subsets", Json.str "abc")]) =
      Except.error (PyErr.valueError "UnsupportedSubsetSize") ∧
    validate_selector_input (Json.obj
      [("file_format_version", Json.num 1), ("duration", Json.str "30d"),
       ("metric", Json.str "download_throughput"), ("subsets", Json.str "ab")]) =
      Except.error (PyErr.valueError "UnsupportedSubsets") :=
  ⟨(validate_subsets_check_order
      [("file_format_version", Json.num 1), ("duration", Json.str "30d"),
       ("metric", Json.str "download_throughput"), ("subsets", Json.str "abc")]
      1 "download_throughput" rfl (by decide) (by decide) rfl rfl (by decide)).2.1
      (Json.str "abc") 3 rfl rfl (Or.inl (by decide)),
   (validate_subsets_check_order
      [("file_format_version", Json.num 1), ("duration", Json.str "30d"),
       ("metric", Json.str "download_throughput"), ("subsets", Json.str "ab")]
      1 "download_throughput" rfl (by decide) (by decide) rfl rfl (by decide)).2.2.1
      (Json.str "ab") rfl rfl 2 rfl (Or.inr rfl)⟩

end Telescope
